import Mathlib

/-!
Verification of the shade renderer's frame-render orchestration and camera
subsystem: a shallow embedding of `src/render/Camera.js`, the OrbitControls
class, and `src/render/Renderer.js`, with theorems settling the spec's claims.

Modelling conventions:
* JS numbers (doubles) are modelled as exact rationals; the decimal constant
  Math.PI is embedded by its printed decimal expansion `jsPI`.  Claims about
  IEEE special values (Infinity, NaN) use the dedicated `JSNum` model below.
* Transcendental library calls (Math.sin, Math.cos, Math.sqrt, Math.acos,
  Math.atan2, Math.pow) are passed in as function parameters, since the claims
  under verification never depend on their analytic values.
* Mutation of `this` is modelled by state passing: each method takes and
  returns the object's state.
-/

/-- Rational stand-in for the JS double constant Math.PI (its decimal
expansion as printed by JS; doubles are modelled as exact rationals). -/
def jsPI : ℚ := 3.141592653589793

/-- A 3-vector of rationals, modelling a JS [x, y, z] array of numbers. -/
structure Vec3 where
  x : ℚ
  y : ℚ
  z : ℚ
deriving DecidableEq, Repr

/-- A homogeneous 4-vector (clip coordinates). -/
structure Vec4 where
  x : ℚ
  y : ℚ
  z : ℚ
  w : ℚ
deriving DecidableEq, Repr

/-- The JS idiom `options.v || d` for a numeric option: `undefined` (none) and
the falsy number 0 both select the default. -/
def jsOr (o : Option ℚ) (d : ℚ) : ℚ :=
  match o with
  | none => d
  | some q => if q = 0 then d else q

/-- The JS idiom `options.v || d` for a string option: `undefined` and the
falsy empty string both select the default. -/
def jsOrStr (o : Option String) (d : String) : String :=
  match o with
  | none => d
  | some s => if s = "" then d else s

/-- The JS idiom `options.v || Infinity` (either sign): `undefined` and 0 both
yield the infinite default, modelled as `none`. -/
def jsOrInf (o : Option ℚ) : Option ℚ :=
  match o with
  | none => none
  | some q => if q = 0 then none else some q

/-- Constructor options of Camera (`src/render/Camera.js`).  `none` models an
absent (undefined) option.  The source field `aspectRatio` is embedded as
`aspect`; `none` models its string value meaning "derive from canvas". -/
structure CameraOptions where
  type : Option String := none
  position : Option Vec3 := none
  target : Option Vec3 := none
  up : Option Vec3 := none
  fov : Option ℚ := none
  aspect : Option ℚ := none
  nearPlane : Option ℚ := none
  farPlane : Option ℚ := none
  size : Option ℚ := none
deriving Repr

/-- State of a Camera instance (`src/render/Camera.js`).  The three matrix
caches are 16-entry column-major arrays mirroring `new Float32Array(16)`.
`viewComputeCount` / `projComputeCount` are instrumentation counting runs of
`updateViewMatrix` / `updateProjectionMatrix` (the spec's "call counter on the
underlying matrix builder"); they shadow no source field and influence
nothing.  `canvasWidth` / `canvasHeight` embed `engine.canvas`. -/
structure Camera where
  type : String
  position : Vec3
  target : Vec3
  up : Vec3
  fov : ℚ
  aspect : Option ℚ
  nearPlane : ℚ
  farPlane : ℚ
  size : ℚ
  canvasWidth : ℚ
  canvasHeight : ℚ
  viewMatrix : List ℚ
  projectionMatrix : List ℚ
  viewProjectionMatrix : List ℚ
  viewDirty : Bool
  projectionDirty : Bool
  viewComputeCount : ℕ
  projComputeCount : ℕ
deriving DecidableEq, Repr

/-- The Camera constructor: all defaults applied with `||` on numbers and
strings, matrix caches initialised to zero-filled Float32Arrays, both dirty
flags set. -/
def mkCamera (cw ch : ℚ) (o : CameraOptions) : Camera :=
  { type := jsOrStr o.type ("perspective")
    position := o.position.getD ⟨0, 0, 5⟩
    target := o.target.getD ⟨0, 0, 0⟩
    up := o.up.getD ⟨0, 1, 0⟩
    fov := jsOr o.fov 60
    aspect := jsOrInf o.aspect
    nearPlane := jsOr o.nearPlane (1/10)
    farPlane := jsOr o.farPlane 1000
    size := jsOr o.size 10
    canvasWidth := cw
    canvasHeight := ch
    viewMatrix := List.replicate 16 0
    projectionMatrix := List.replicate 16 0
    viewProjectionMatrix := List.replicate 16 0
    viewDirty := true
    projectionDirty := true
    viewComputeCount := 0
    projComputeCount := 0 }

namespace Camera

/-- Camera.setPosition(x, y, z): writes the three components and sets
`viewDirty = true`. -/
def setPosition (c : Camera) (x y z : ℚ) : Camera :=
  { c with position := ⟨x, y, z⟩, viewDirty := true }

/-- Camera.setTarget(x, y, z): writes the target and sets `viewDirty = true`. -/
def setTarget (c : Camera) (x y z : ℚ) : Camera :=
  { c with target := ⟨x, y, z⟩, viewDirty := true }

/-- Camera.lookAt(x, y, z): identical body to setTarget in the source. -/
def lookAt (c : Camera) (x y z : ℚ) : Camera :=
  { c with target := ⟨x, y, z⟩, viewDirty := true }

/-- Camera.updateViewMatrix: the body is a TODO stub in the source — it writes
no matrix entry and only clears the dirty flag.  The instrumentation counter
records that a recomputation call happened. -/
def updateViewMatrix (c : Camera) : Camera :=
  { c with viewDirty := false, viewComputeCount := c.viewComputeCount + 1 }

/-- Camera.updateProjectionMatrix: derives the aspect (dead code in the
stubbed source: both the perspective and orthographic matrix writes are TODO
comments), then clears the dirty flag. -/
def updateProjectionMatrix (c : Camera) : Camera :=
  let _aspect : ℚ :=
    match c.aspect with
    | none => c.canvasWidth / c.canvasHeight
    | some a => a
  { c with projectionDirty := false, projComputeCount := c.projComputeCount + 1 }

/-- Camera.getViewMatrix: recompute if dirty, then return the cache. -/
def getViewMatrix (c : Camera) : List ℚ × Camera :=
  if c.viewDirty then
    let c' := updateViewMatrix c
    (c'.viewMatrix, c')
  else (c.viewMatrix, c)

/-- Camera.getProjectionMatrix: recompute if dirty, then return the cache. -/
def getProjectionMatrix (c : Camera) : List ℚ × Camera :=
  if c.projectionDirty then
    let c' := updateProjectionMatrix c
    (c'.projectionMatrix, c')
  else (c.projectionMatrix, c)

/-- Camera.getViewProjectionMatrix: fetches both cached matrices (for their
dirty-flag side effects) and returns `this.viewProjectionMatrix` — which no
code path ever writes; the multiplication is only a TODO comment in the
source. -/
def getViewProjectionMatrix (c : Camera) : List ℚ × Camera :=
  let vc := getViewMatrix c
  let pc := getProjectionMatrix vc.2
  (pc.2.viewProjectionMatrix, pc.2)

end Camera

/-- Apply a 16-entry column-major matrix (Float32Array layout: entry
`col * 4 + row`, the layout used by MathUtils and the uniform upload) to a
homogeneous 4-vector. -/
def mat4MulVec (m : List ℚ) (v : Vec4) : Vec4 :=
  let e := fun i => m.getD i 0
  { x := e 0 * v.x + e 4 * v.y + e 8 * v.z + e 12 * v.w
    y := e 1 * v.x + e 5 * v.y + e 9 * v.z + e 13 * v.w
    z := e 2 * v.x + e 6 * v.y + e 10 * v.z + e 14 * v.w
    w := e 3 * v.x + e 7 * v.y + e 11 * v.z + e 15 * v.w }

/-- Spherical coordinates `{radius, phi, theta}` as used by OrbitControls. -/
structure Spherical where
  radius : ℚ
  phi : ℚ
  theta : ℚ
deriving DecidableEq, Repr

/-- Constructor options of OrbitControls; `none` models `undefined`. -/
structure OrbitOptions where
  target : Option Vec3 := none
  minDistance : Option ℚ := none
  maxDistance : Option ℚ := none
  minPolarAngle : Option ℚ := none
  maxPolarAngle : Option ℚ := none
  minAzimuthAngle : Option ℚ := none
  maxAzimuthAngle : Option ℚ := none
  rotateSpeed : Option ℚ := none
  zoomSpeed : Option ℚ := none
  panSpeed : Option ℚ := none
  enableDamping : Option Bool := none
  dampingFactor : Option ℚ := none
  enableZoom : Option Bool := none
  enableRotate : Option Bool := none
  enablePan : Option Bool := none
  autoRotate : Option Bool := none
  autoRotateSpeed : Option ℚ := none
deriving Repr

/-- State of an OrbitControls instance.  The azimuth bounds default to
minus/plus Infinity in the source; `none` models the infinite (unconstraining)
bound.  `clientWidth` / `clientHeight` embed the canvas dimensions read by the
input handlers.  Mouse/touch bookkeeping fields are omitted: no claim touches
them and they influence only which handler an event is routed to. -/
structure OrbitState where
  target : Vec3
  minDistance : ℚ
  maxDistance : ℚ
  minPolarAngle : ℚ
  maxPolarAngle : ℚ
  minAzimuthAngle : Option ℚ
  maxAzimuthAngle : Option ℚ
  rotateSpeed : ℚ
  zoomSpeed : ℚ
  panSpeed : ℚ
  enableDamping : Bool
  dampingFactor : ℚ
  spherical : Spherical
  sphericalDelta : Spherical
  scale : ℚ
  panOffset : Vec3
  zoomChanged : Bool
  enableZoom : Bool
  enableRotate : Bool
  enablePan : Bool
  autoRotate : Bool
  autoRotateSpeed : ℚ
  clientWidth : ℚ
  clientHeight : ℚ
deriving DecidableEq, Repr

/-- `Math.max(lo, Math.min(hi, x))` where either bound may be the infinite
default (`none`), in which case that side of the clamp is the identity. -/
def jsClampOpt (lo hi : Option ℚ) (x : ℚ) : ℚ :=
  let m := match hi with
    | none => x
    | some h => min h x
  match lo with
  | none => m
  | some l => max l m

namespace OrbitControls

/-- OrbitControls.updateSphericalFromCamera: spherical coordinates of the
camera relative to the target.  `sqrtq`, `acosq`, `atan2q` stand for
Math.sqrt, Math.acos, Math.atan2. -/
def updateSphericalFromCamera (sqrtq acosq : ℚ → ℚ) (atan2q : ℚ → ℚ → ℚ)
    (s : OrbitState) (cam : Camera) : OrbitState :=
  let ox := cam.position.x - s.target.x
  let oy := cam.position.y - s.target.y
  let oz := cam.position.z - s.target.z
  let radius := sqrtq (ox * ox + oy * oy + oz * oz)
  let phi := acosq (min (max (oy / radius) (-1)) 1)
  let theta := atan2q ox oz
  { s with spherical := { radius := radius, phi := phi, theta := theta } }

/-- The OrbitControls constructor: numeric options defaulted with `||`
(`jsOr`), azimuth bounds with `|| Infinity` (`jsOrInf`), the enable flags with
an explicit undefined test (`getD`), then `updateSphericalFromCamera`. -/
def mkOrbitControls (sqrtq acosq : ℚ → ℚ) (atan2q : ℚ → ℚ → ℚ)
    (cam : Camera) (o : OrbitOptions) : OrbitState :=
  let s0 : OrbitState :=
    { target := o.target.getD ⟨0, 0, 0⟩
      minDistance := jsOr o.minDistance 1
      maxDistance := jsOr o.maxDistance 100
      minPolarAngle := jsOr o.minPolarAngle (1/10)
      maxPolarAngle := jsOr o.maxPolarAngle (jsPI - 1/10)
      minAzimuthAngle := jsOrInf o.minAzimuthAngle
      maxAzimuthAngle := jsOrInf o.maxAzimuthAngle
      rotateSpeed := jsOr o.rotateSpeed 1
      zoomSpeed := jsOr o.zoomSpeed 1
      panSpeed := jsOr o.panSpeed 1
      enableDamping := o.enableDamping.getD true
      dampingFactor := jsOr o.dampingFactor (1/20)
      spherical := ⟨0, 0, 0⟩
      sphericalDelta := ⟨0, 0, 0⟩
      scale := 1
      panOffset := ⟨0, 0, 0⟩
      zoomChanged := false
      enableZoom := o.enableZoom.getD true
      enableRotate := o.enableRotate.getD true
      enablePan := o.enablePan.getD true
      autoRotate := o.autoRotate.getD false
      autoRotateSpeed := jsOr o.autoRotateSpeed 2
      clientWidth := cam.canvasWidth
      clientHeight := cam.canvasHeight }
  updateSphericalFromCamera sqrtq acosq atan2q s0 cam

/-- OrbitControls.handleRotate(deltaX, deltaY), exact-rational model: valid on
runs without division by zero (the IEEE special-value behaviour at a zero
viewport is modelled separately by `jsHandleRotate` below).  The two products
are left-associated exactly as in the source expression. -/
def handleRotate (s : OrbitState) (deltaX deltaY : ℚ) : OrbitState :=
  { s with sphericalDelta :=
    { s.sphericalDelta with
      theta := s.sphericalDelta.theta - 2 * jsPI * deltaX / s.clientWidth * s.rotateSpeed
      phi := s.sphericalDelta.phi - 2 * jsPI * deltaY / s.clientHeight * s.rotateSpeed } }

/-- OrbitControls.handleZoom(delta); `powq` stands for Math.pow.  The source
sets `zoomChanged` in every case and leaves `scale` untouched at delta = 0. -/
def handleZoom (powq : ℚ → ℚ → ℚ) (s : OrbitState) (delta : ℚ) : OrbitState :=
  if 0 < delta then
    { s with scale := s.scale / powq (19/20) s.zoomSpeed, zoomChanged := true }
  else if delta < 0 then
    { s with scale := s.scale * powq (19/20) s.zoomSpeed, zoomChanged := true }
  else { s with zoomChanged := true }

/-- OrbitControls.updateCameraFromSpherical: Y-up spherical-to-Cartesian,
plus target and pan offset, written back through Camera.setPosition and
Camera.lookAt. -/
def updateCameraFromSpherical (sinq cosq : ℚ → ℚ) (s : OrbitState) (cam : Camera) :
    Camera :=
  let radius := s.spherical.radius
  let phi := s.spherical.phi
  let theta := s.spherical.theta
  let sinPhiRadius := radius * sinq phi
  let px := sinPhiRadius * sinq theta + (s.target.x + s.panOffset.x)
  let py := radius * cosq phi + (s.target.y + s.panOffset.y)
  let pz := sinPhiRadius * cosq theta + (s.target.z + s.panOffset.z)
  let cam1 := Camera.setPosition cam px py pz
  Camera.lookAt cam1 s.target.x s.target.y s.target.z

/-- OrbitControls.update(deltaTime): auto-rotate accumulation (theta delta
only), delta application with polar/azimuth clamping, damping or reset of the
pending deltas, zoom application (radius clamp only under `zoomChanged`),
camera write-back from the new spherical state with the pre-decay pan offset,
then pan decay.  The imperative field updates of the source are embedded as
one functional state construction in the same order. -/
def update (sinq cosq : ℚ → ℚ) (dt : ℚ) (s : OrbitState) (cam : Camera) :
    OrbitState × Camera :=
  let dTheta :=
    if s.autoRotate then
      s.sphericalDelta.theta - 2 * jsPI / 60 / 60 * s.autoRotateSpeed * dt
    else s.sphericalDelta.theta
  let dPhi := s.sphericalDelta.phi
  let theta1 := s.spherical.theta + dTheta
  let phi1 := s.spherical.phi + dPhi
  let phi2 := max s.minPolarAngle (min s.maxPolarAngle phi1)
  let theta2 := jsClampOpt s.minAzimuthAngle s.maxAzimuthAngle theta1
  let dTheta2 := if s.enableDamping then dTheta * (1 - s.dampingFactor) else 0
  let dPhi2 := if s.enableDamping then dPhi * (1 - s.dampingFactor) else 0
  let radius2 :=
    if s.zoomChanged then
      max s.minDistance (min s.maxDistance (s.spherical.radius / s.scale))
    else s.spherical.radius
  let scale2 := if s.zoomChanged then 1 else s.scale
  let zoom2 := if s.zoomChanged then false else s.zoomChanged
  let s1 : OrbitState :=
    { s with
      spherical := { radius := radius2, phi := phi2, theta := theta2 }
      sphericalDelta := { s.sphericalDelta with theta := dTheta2, phi := dPhi2 }
      scale := scale2
      zoomChanged := zoom2 }
  let cam1 := updateCameraFromSpherical sinq cosq s1 cam
  let pan1 : Vec3 :=
    if s.enableDamping then
      ⟨s.panOffset.x * (1 - s.dampingFactor), s.panOffset.y * (1 - s.dampingFactor),
       s.panOffset.z * (1 - s.dampingFactor)⟩
    else ⟨0, 0, 0⟩
  ({ s1 with panOffset := pan1 }, cam1)

end OrbitControls

/-- Camera.update(deltaTime): runs the attached controls if any (which mutate
the camera through setPosition/lookAt), then unconditionally marks the view
matrix dirty. -/
def Camera.update (sinq cosq : ℚ → ℚ) (cam : Camera) (controls : Option OrbitState)
    (dt : ℚ) : Camera × Option OrbitState :=
  let p :=
    match controls with
    | none => (cam, none)
    | some s =>
      let q := OrbitControls.update sinq cosq dt s cam
      (q.2, some q.1)
  ({ p.1 with viewDirty := true }, p.2)

/-- A sequence of rotate drags accumulated through handleRotate. -/
def rotateSeq (s : OrbitState) (ds : List (ℚ × ℚ)) : OrbitState :=
  ds.foldl (fun t d => OrbitControls.handleRotate t d.1 d.2) s

/-- A JS double for the handler-level analysis of degenerate viewports: an
exact rational, a signed infinity (`inf true` is -Infinity), or NaN.  Rounding
is not modelled — finite arithmetic is exact — but the IEEE rules producing
and propagating infinities and NaN are. -/
inductive JSNum where
  | num : ℚ → JSNum
  | inf : Bool → JSNum
  | nan : JSNum
deriving DecidableEq, Repr

namespace JSNum

/-- Whether the value is an ordinary (finite) number. -/
def isFinite : JSNum → Bool
  | num _ => true
  | _ => false

/-- IEEE addition on the exact fragment. -/
def jadd : JSNum → JSNum → JSNum
  | nan, _ => nan
  | _, nan => nan
  | num a, num b => num (a + b)
  | num _, inf s => inf s
  | inf s, num _ => inf s
  | inf s, inf t => if s = t then inf s else nan

/-- IEEE subtraction on the exact fragment. -/
def jsub : JSNum → JSNum → JSNum
  | nan, _ => nan
  | _, nan => nan
  | num a, num b => num (a - b)
  | num _, inf s => inf (!s)
  | inf s, num _ => inf s
  | inf s, inf t => if s = t then nan else inf s

/-- IEEE multiplication on the exact fragment: zero times infinity is NaN, a
negative finite factor flips the sign of an infinity. -/
def jmul : JSNum → JSNum → JSNum
  | nan, _ => nan
  | _, nan => nan
  | num a, num b => num (a * b)
  | num a, inf s => if a = 0 then nan else if a < 0 then inf (!s) else inf s
  | inf s, num a => if a = 0 then nan else if a < 0 then inf (!s) else inf s
  | inf s, inf t => if s = t then inf false else inf true

/-- IEEE division on the exact fragment: a nonzero finite number divided by
zero is a signed infinity, zero by zero is NaN, finite by infinite is zero. -/
def jdiv : JSNum → JSNum → JSNum
  | nan, _ => nan
  | _, nan => nan
  | num a, num b =>
    if b = 0 then (if a = 0 then nan else if a < 0 then inf true else inf false)
    else num (a / b)
  | num _, inf _ => num 0
  | inf s, num b => if b = 0 then inf s else if b < 0 then inf (!s) else inf s
  | inf _, inf _ => nan

end JSNum

/-- The fields of OrbitControls read and written by handleRotate, at JS-double
precision. -/
structure JSRotState where
  sdTheta : JSNum
  sdPhi : JSNum
  rotateSpeed : JSNum
  clientWidth : JSNum
  clientHeight : JSNum
deriving DecidableEq, Repr

/-- OrbitControls.handleRotate at IEEE semantics: the source expression
`2 * Math.PI * delta / clientDim * rotateSpeed` evaluated left to right with
no guard on the divisor. -/
def jsHandleRotate (s : JSRotState) (deltaX deltaY : JSNum) : JSRotState :=
  let twoPi := JSNum.jmul (JSNum.num 2) (JSNum.num jsPI)
  { s with
    sdTheta := JSNum.jsub s.sdTheta
      (JSNum.jmul (JSNum.jdiv (JSNum.jmul twoPi deltaX) s.clientWidth) s.rotateSpeed)
    sdPhi := JSNum.jsub s.sdPhi
      (JSNum.jmul (JSNum.jdiv (JSNum.jmul twoPi deltaY) s.clientHeight) s.rotateSpeed) }

/-- The fields of OrbitControls read and written by handlePan, at JS-double
precision. -/
structure JSPanState where
  panOffsetX : JSNum
  panOffsetY : JSNum
  panOffsetZ : JSNum
  sphericalRadius : JSNum
  panSpeed : JSNum
  clientWidth : JSNum
  clientHeight : JSNum
  cameraX : JSNum
  cameraY : JSNum
  cameraZ : JSNum
  targetX : JSNum
  targetY : JSNum
  targetZ : JSNum
deriving DecidableEq, Repr

/-- OrbitControls.handlePan at IEEE semantics: scales the deltas by
`(2 * radius) / clientDim` with no guard on the divisor, normalises the
forward vector (`sqrtj` stands for Math.sqrt), crosses with the fixed up
vector [0, 1, 0], and accumulates into panOffset. -/
def jsHandlePan (sqrtj : JSNum → JSNum) (s : JSPanState) (deltaX deltaY : JSNum) :
    JSPanState :=
  let distance := s.sphericalRadius
  let dX := JSNum.jdiv (JSNum.jmul deltaX (JSNum.jmul distance (JSNum.num 2))) s.clientWidth
  let dY := JSNum.jdiv (JSNum.jmul deltaY (JSNum.jmul distance (JSNum.num 2))) s.clientHeight
  let f0 := JSNum.jsub s.targetX s.cameraX
  let f1 := JSNum.jsub s.targetY s.cameraY
  let f2 := JSNum.jsub s.targetZ s.cameraZ
  let len := sqrtj (JSNum.jadd (JSNum.jadd (JSNum.jmul f0 f0) (JSNum.jmul f1 f1))
    (JSNum.jmul f2 f2))
  let f0 := JSNum.jdiv f0 len
  let f1 := JSNum.jdiv f1 len
  let f2 := JSNum.jdiv f2 len
  let u0 := JSNum.num 0
  let u1 := JSNum.num 1
  let u2 := JSNum.num 0
  let r0 := JSNum.jsub (JSNum.jmul f1 u2) (JSNum.jmul f2 u1)
  let r1 := JSNum.jsub (JSNum.jmul f2 u0) (JSNum.jmul f0 u2)
  let r2 := JSNum.jsub (JSNum.jmul f0 u1) (JSNum.jmul f1 u0)
  { s with
    panOffsetX := JSNum.jadd s.panOffsetX
      (JSNum.jsub (JSNum.jmul (JSNum.jmul r0 dX) s.panSpeed)
        (JSNum.jmul (JSNum.jmul f0 dY) s.panSpeed))
    panOffsetY := JSNum.jadd s.panOffsetY
      (JSNum.jsub (JSNum.jmul (JSNum.jmul r1 dX) s.panSpeed)
        (JSNum.jmul (JSNum.jmul f1 dY) s.panSpeed))
    panOffsetZ := JSNum.jadd s.panOffsetZ
      (JSNum.jsub (JSNum.jmul (JSNum.jmul r2 dX) s.panSpeed)
        (JSNum.jmul (JSNum.jmul f2 dY) s.panSpeed)) }

/-- One observable step of Renderer.render (`src/render/Renderer.js`): the
trace language in which the frame is recorded.  GPU handles are numbers. -/
inductive RenderEvent where
  | sceneUpdate
  | writeCameraBuffer
  | errorLog (msg : String)
  | consoleLog (msg : String)
  | createEncoder
  | beginPass
  | setViewportEv
  | setScissor
  | setPipeline (p : ℕ)
  | setBindGroup (slot : ℕ) (g : ℕ)
  | updateModelUniforms
  | setVertexBuffer (b : ℕ)
  | setIndexBuffer (b : ℕ)
  | drawIndexed (n : ℕ)
  | endPass
  | finishEncoder
  | submit
deriving DecidableEq, Repr

/-- A mesh as consumed by the drawable loop. -/
structure GMesh where
  vertexBuffer : ℕ
  indexBuffer : ℕ
  indexCount : ℕ
deriving DecidableEq, Repr

/-- A material as consumed by the drawable loop: its type tag, its own
pipeline if it has one, and its two bind groups. -/
structure GMaterial where
  type : String
  pipeline : Option ℕ
  modelBindGroup : ℕ
  bindGroup : ℕ
deriving DecidableEq, Repr

/-- A MeshRenderer component: possibly missing mesh or material references,
plus the component's own bind groups used on the built-in pipeline path. -/
structure GMeshRenderer where
  mesh : Option GMesh
  material : Option GMaterial
  modelBindGroup : ℕ
  materialBindGroup : ℕ
deriving DecidableEq, Repr

/-- A scene entity as seen by the drawable loop (getComponent returning
undefined is `none`). -/
structure GEntity where
  meshRenderer : Option GMeshRenderer
deriving DecidableEq, Repr

/-- The renderer environment for one frame: the surface's current texture (or
none when unavailable), the depth attachment view, the default pipeline and
camera bind group handles, and the drawable entities supplied by the scene. -/
structure RenderEnv where
  currentTexture : Option ℕ
  depthTextureView : Option ℕ
  basicPipeline : ℕ
  cameraBindGroup : ℕ
  entities : List GEntity
deriving DecidableEq, Repr

/-- The events recorded for one entity of the drawable loop: skip on missing
meshRenderer/mesh/material; cubemap and standard materials use their own
pipeline and bind groups (logged error and skip when the pipeline is absent);
every other material uses the built-in pipeline; finally vertex and index
buffers are bound and an indexed draw is issued. -/
def drawableEvents (basic camBG : ℕ) (e : GEntity) : List RenderEvent :=
  match e.meshRenderer with
  | none => []
  | some mr =>
    match mr.mesh, mr.material with
    | some mesh, some mat =>
      let tail := [RenderEvent.setVertexBuffer mesh.vertexBuffer,
                   RenderEvent.setIndexBuffer mesh.indexBuffer,
                   RenderEvent.drawIndexed mesh.indexCount]
      if mat.type = "cubemap" ∨ mat.type = "standard" then
        match mat.pipeline with
        | some p =>
          [RenderEvent.updateModelUniforms, RenderEvent.setPipeline p,
           RenderEvent.setBindGroup 0 camBG, RenderEvent.setBindGroup 1 mat.modelBindGroup,
           RenderEvent.setBindGroup 2 mat.bindGroup] ++ tail
        | none => [RenderEvent.errorLog (mat.type ++ " material has no pipeline")]
      else
        [RenderEvent.updateModelUniforms, RenderEvent.setPipeline basic,
         RenderEvent.setBindGroup 0 camBG, RenderEvent.setBindGroup 1 mr.modelBindGroup,
         RenderEvent.setBindGroup 2 mr.materialBindGroup] ++ tail
    | _, _ => []

/-- The event trace of Renderer.render(scene, camera): resize and scene update,
camera uniform upload, then — inside the try block — texture acquisition with
an early logged return on failure, render-pass recording over all drawables,
and a single queue submission at the end. -/
def renderTrace (env : RenderEnv) : List RenderEvent :=
  [RenderEvent.sceneUpdate, RenderEvent.writeCameraBuffer] ++
  match env.currentTexture with
  | none => [RenderEvent.errorLog ("No current texture available.")]
  | some _ =>
    match env.depthTextureView with
    | none => [RenderEvent.errorLog ("Depth texture view is invalid.")]
    | some _ =>
      [RenderEvent.createEncoder, RenderEvent.beginPass, RenderEvent.setViewportEv,
       RenderEvent.setScissor, RenderEvent.setPipeline env.basicPipeline,
       RenderEvent.setBindGroup 0 env.cameraBindGroup] ++
      (env.entities.flatMap (drawableEvents env.basicPipeline env.cameraBindGroup)) ++
      [RenderEvent.endPass, RenderEvent.finishEncoder,
       RenderEvent.consoleLog ("Command buffer finished"), RenderEvent.submit]

/-- Number of queue submissions in a trace. -/
def submitCount (t : List RenderEvent) : ℕ :=
  t.countP (fun e => decide (e = RenderEvent.submit))

/-- Number of command encoders created in a trace (command recording starts
with encoder creation). -/
def encoderCount (t : List RenderEvent) : ℕ :=
  t.countP (fun e => decide (e = RenderEvent.createEncoder))

/-- Number of draw calls issued in a trace. -/
def drawCount (t : List RenderEvent) : ℕ :=
  t.countP (fun e => match e with | RenderEvent.drawIndexed _ => true | _ => false)

/-- The camera of the spec's perspective test scenario: position (0,0,5),
target the origin, fov 60, aspect 1, near 0.1, far 1000. -/
def cameraA : Camera :=
  mkCamera 1 1
    { position := some ⟨0, 0, 5⟩, target := some ⟨0, 0, 0⟩, fov := some 60,
      aspect := some 1, nearPlane := some (1/10), farPlane := some 1000 }

/-- C1: evaluation at the failing input.  For the scenario camera,
getViewProjectionMatrix returns the all-zero matrix (updateViewMatrix and
updateProjectionMatrix are TODO stubs that never write their caches, and the
product is never computed), so the origin maps to clip coordinates
(0, 0, 0, 0): x = y = 0 holds vacuously but w = 0, so the depth z/w is not a
number inside any depth range. -/
theorem c1_viewProjectionMatrix_never_written :
    (Camera.getViewProjectionMatrix cameraA).1 = List.replicate 16 0 ∧
    mat4MulVec (Camera.getViewProjectionMatrix cameraA).1 ⟨0, 0, 0, 1⟩ = ⟨0, 0, 0, 0⟩ ∧
    (mat4MulVec (Camera.getViewProjectionMatrix cameraA).1 ⟨0, 0, 0, 1⟩).w = 0 := by
  norm_num [cameraA, mkCamera, jsOr, jsOrStr, jsOrInf, Camera.getViewProjectionMatrix,
    Camera.getViewMatrix, Camera.getProjectionMatrix, Camera.updateViewMatrix,
    Camera.updateProjectionMatrix, mat4MulVec, List.replicate, List.getD]

/-- handleRotate touches only the pending deltas: folding any drag sequence
leaves the committed spherical state, the clamp configuration and the zoom
bookkeeping untouched. -/
theorem rotateSeq_stable (ds : List (ℚ × ℚ)) (s : OrbitState) :
    (rotateSeq s ds).spherical = s.spherical ∧
    (rotateSeq s ds).zoomChanged = s.zoomChanged ∧
    (rotateSeq s ds).minPolarAngle = s.minPolarAngle ∧
    (rotateSeq s ds).maxPolarAngle = s.maxPolarAngle ∧
    (rotateSeq s ds).autoRotate = s.autoRotate := by
  induction ds generalizing s with
  | nil => exact ⟨rfl, rfl, rfl, rfl, rfl⟩
  | cons d ds ih =>
    have h := ih (OrbitControls.handleRotate s d.1 d.2)
    simpa [rotateSeq, OrbitControls.handleRotate] using h

/-- What holds of the spherical state after a drag sequence followed by one
update: phi is inside the polar bounds, an overshoot lands exactly on the
violated bound, and — radius being clamped only on the zoom path — a tick
without a pending zoom leaves radius unchanged. -/
def C2Post (sinq cosq : ℚ → ℚ) (dt : ℚ) (s : OrbitState) (cam : Camera)
    (ds : List (ℚ × ℚ)) : Prop :=
  (s.minPolarAngle ≤
      ((OrbitControls.update sinq cosq dt (rotateSeq s ds) cam).1).spherical.phi ∧
    ((OrbitControls.update sinq cosq dt (rotateSeq s ds) cam).1).spherical.phi ≤
      s.maxPolarAngle) ∧
  (s.maxPolarAngle < s.spherical.phi + (rotateSeq s ds).sphericalDelta.phi →
    ((OrbitControls.update sinq cosq dt (rotateSeq s ds) cam).1).spherical.phi =
      s.maxPolarAngle) ∧
  (s.spherical.phi + (rotateSeq s ds).sphericalDelta.phi < s.minPolarAngle →
    ((OrbitControls.update sinq cosq dt (rotateSeq s ds) cam).1).spherical.phi =
      s.minPolarAngle) ∧
  (s.zoomChanged = false →
    ((OrbitControls.update sinq cosq dt (rotateSeq s ds) cam).1).spherical.radius =
      s.spherical.radius)

/-- C2 (amended): for every state whose polar bounds are ordered, any sequence
of rotate drags followed by update() leaves phi inside
[minPolarAngle, maxPolarAngle], an overshoot past a pole lands exactly on the
violated bound, and radius is left exactly unchanged when no zoom is pending —
update() clamps radius only on the zoomChanged path, so the claimed
unconditional radius invariant fails (see the counterexample). -/
theorem c2_polar_clamped_radius_conditional (sinq cosq : ℚ → ℚ) (dt : ℚ)
    (s : OrbitState) (cam : Camera) (ds : List (ℚ × ℚ))
    (hpol : s.minPolarAngle ≤ s.maxPolarAngle) :
    C2Post sinq cosq dt s cam ds := by
  obtain ⟨hs, hz, hminp, hmaxp, -⟩ := rotateSeq_stable ds s
  have hphi : ((OrbitControls.update sinq cosq dt (rotateSeq s ds) cam).1).spherical.phi
      = max s.minPolarAngle (min s.maxPolarAngle
          (s.spherical.phi + (rotateSeq s ds).sphericalDelta.phi)) := by
    simp [OrbitControls.update, hs, hminp, hmaxp]
  have hrad : (rotateSeq s ds).zoomChanged = false →
      ((OrbitControls.update sinq cosq dt (rotateSeq s ds) cam).1).spherical.radius
        = s.spherical.radius := by
    intro h
    simp [OrbitControls.update, h, hs]
  refine ⟨⟨?_, ?_⟩, ?_, ?_, ?_⟩
  · rw [hphi]; exact le_max_left _ _
  · rw [hphi]; exact max_le hpol (min_le_left _ _)
  · intro h
    rw [hphi, min_eq_left h.le, max_eq_right hpol]
  · intro h
    rw [hphi, min_eq_right (h.trans_le hpol).le, max_eq_left h.le]
  · intro h
    exact hrad (hz.trans h)

/-- The orbit state reached by constructing OrbitControls with default options
for a camera 200 units from the target (radius = 200 is outside the default
[1, 100] distance bounds). -/
def orbitBig : OrbitState :=
  { target := ⟨0, 0, 0⟩, minDistance := 1, maxDistance := 100,
    minPolarAngle := 1/10, maxPolarAngle := jsPI - 1/10,
    minAzimuthAngle := none, maxAzimuthAngle := none,
    rotateSpeed := 1, zoomSpeed := 1, panSpeed := 1,
    enableDamping := true, dampingFactor := 1/20,
    spherical := ⟨200, 1, 0⟩, sphericalDelta := ⟨0, 0, 0⟩,
    scale := 1, panOffset := ⟨0, 0, 0⟩, zoomChanged := false,
    enableZoom := true, enableRotate := true, enablePan := true,
    autoRotate := false, autoRotateSpeed := 2,
    clientWidth := 800, clientHeight := 600 }

/-- C2, counterexample to the claim as stated: a rotate drag followed by
update() on a state with radius 200 and maxDistance 100 leaves radius at 200 —
outside [minDistance, maxDistance] — because update() clamps radius only when
a zoom is pending. -/
theorem c2_radius_not_clamped :
    ((OrbitControls.update (fun _ => 0) (fun _ => 0) (2/125)
        (OrbitControls.handleRotate orbitBig 10 10) cameraA).1).spherical.radius = 200 ∧
    orbitBig.maxDistance <
      ((OrbitControls.update (fun _ => 0) (fun _ => 0) (2/125)
        (OrbitControls.handleRotate orbitBig 10 10) cameraA).1).spherical.radius := by
  have h : ((OrbitControls.update (fun _ => 0) (fun _ => 0) (2/125)
      (OrbitControls.handleRotate orbitBig 10 10) cameraA).1).spherical.radius = 200 := by
    simp [OrbitControls.update, OrbitControls.handleRotate, orbitBig]
  exact ⟨h, by rw [h]; norm_num [orbitBig]⟩

/-- C2, witness: the amended theorem applied to the concrete state above with
a single drag whose deltaY drives phi far past the upper pole. -/
theorem c2_polar_clamped_witness :
    orbitBig.minPolarAngle ≤ orbitBig.maxPolarAngle ∧
    C2Post (fun _ => 0) (fun _ => 0) (2/125) orbitBig cameraA [(0, -300)] :=
  ⟨by norm_num [orbitBig, jsPI],
   c2_polar_clamped_radius_conditional (fun _ => 0) (fun _ => 0) (2/125) orbitBig cameraA
     [(0, -300)] (by norm_num [orbitBig, jsPI])⟩

/-- The source Camera class has no setUp method: the only way a caller can
mutate `up` is a direct field assignment (`camera.up = v`), embedded here.  It
does not touch the dirty flag. -/
def Camera.setUpAssign (c : Camera) (x y z : ℚ) : Camera :=
  { c with up := ⟨x, y, z⟩ }

/-- C3 (amended): a second getViewMatrix call without intervening mutation
returns the identical cached matrix and the identical state — in particular no
recomputation happens (the instrumentation counter is unchanged) — the state
returned by getViewMatrix always has viewDirty = false, and each of the
mutators that exist in the source (setPosition, setTarget, lookAt — there is
no setUp) sets viewDirty = true. -/
theorem c3_view_cache_and_mutators (c : Camera) (x y z : ℚ) :
    (Camera.getViewMatrix (Camera.getViewMatrix c).2).1 = (Camera.getViewMatrix c).1 ∧
    (Camera.getViewMatrix (Camera.getViewMatrix c).2).2 = (Camera.getViewMatrix c).2 ∧
    (Camera.getViewMatrix (Camera.getViewMatrix c).2).2.viewComputeCount
      = (Camera.getViewMatrix c).2.viewComputeCount ∧
    (Camera.getViewMatrix c).2.viewDirty = false ∧
    (Camera.setPosition c x y z).viewDirty = true ∧
    (Camera.setTarget c x y z).viewDirty = true ∧
    (Camera.lookAt c x y z).viewDirty = true := by
  cases h : c.viewDirty <;>
    simp [Camera.getViewMatrix, Camera.updateViewMatrix, Camera.setPosition,
      Camera.setTarget, Camera.lookAt, h]

/-- C3, counterexample to the claim as stated: mutating `up` on a clean camera
(the only way to do so, Camera having no setUp method) leaves viewDirty =
false, and the next getViewMatrix call performs no recomputation — refuting
"every call to setPosition, setTarget, or setUp sets viewDirty = true". -/
theorem c3_up_mutation_not_tracked :
    (Camera.setUpAssign (Camera.updateViewMatrix cameraA) 1 0 0).up = ⟨1, 0, 0⟩ ∧
    (Camera.setUpAssign (Camera.updateViewMatrix cameraA) 1 0 0).viewDirty = false ∧
    (Camera.getViewMatrix (Camera.setUpAssign (Camera.updateViewMatrix cameraA) 1 0 0)).2.viewComputeCount
      = (Camera.setUpAssign (Camera.updateViewMatrix cameraA) 1 0 0).viewComputeCount := by
  refine ⟨rfl, rfl, ?_⟩
  simp [Camera.getViewMatrix, Camera.setUpAssign, Camera.updateViewMatrix]

/-- C4: every update() tick writes the camera through setPosition followed by
lookAt(target), with the position recomputed from the updated spherical state
by the Y-up spherical-to-Cartesian formulas plus target and (pre-decay) pan
offset; consequently the camera's target is the controller's target and the
camera is left view-dirty. -/
theorem c4_update_writes_camera (sinq cosq : ℚ → ℚ) (dt : ℚ) (s : OrbitState)
    (cam : Camera) :
    (OrbitControls.update sinq cosq dt s cam).2 =
      Camera.lookAt
        (Camera.setPosition cam
          ((OrbitControls.update sinq cosq dt s cam).1.spherical.radius *
              sinq (OrbitControls.update sinq cosq dt s cam).1.spherical.phi *
              sinq (OrbitControls.update sinq cosq dt s cam).1.spherical.theta
            + (s.target.x + s.panOffset.x))
          ((OrbitControls.update sinq cosq dt s cam).1.spherical.radius *
              cosq (OrbitControls.update sinq cosq dt s cam).1.spherical.phi
            + (s.target.y + s.panOffset.y))
          ((OrbitControls.update sinq cosq dt s cam).1.spherical.radius *
              sinq (OrbitControls.update sinq cosq dt s cam).1.spherical.phi *
              cosq (OrbitControls.update sinq cosq dt s cam).1.spherical.theta
            + (s.target.z + s.panOffset.z)))
        s.target.x s.target.y s.target.z ∧
    (OrbitControls.update sinq cosq dt s cam).2.target = s.target ∧
    (OrbitControls.update sinq cosq dt s cam).2.viewDirty = true := by
  refine ⟨?_, ?_, ?_⟩ <;>
    simp [OrbitControls.update, OrbitControls.updateCameraFromSpherical,
      Camera.setPosition, Camera.lookAt]

/-- What holds of the pending deltas after one update() tick with no new
input: with damping on they are multiplied by exactly (1 - dampingFactor) —
hence strictly shrink in magnitude and stay nonzero when nonzero — and with
damping off they are zeroed. -/
def C5Post (sinq cosq : ℚ → ℚ) (dt : ℚ) (s : OrbitState) (cam : Camera) : Prop :=
  (s.enableDamping = true →
    ((OrbitControls.update sinq cosq dt s cam).1).sphericalDelta.theta
      = s.sphericalDelta.theta * (1 - s.dampingFactor) ∧
    ((OrbitControls.update sinq cosq dt s cam).1).sphericalDelta.phi
      = s.sphericalDelta.phi * (1 - s.dampingFactor) ∧
    (s.sphericalDelta.theta ≠ 0 →
      |((OrbitControls.update sinq cosq dt s cam).1).sphericalDelta.theta|
          < |s.sphericalDelta.theta| ∧
      ((OrbitControls.update sinq cosq dt s cam).1).sphericalDelta.theta ≠ 0) ∧
    (s.sphericalDelta.phi ≠ 0 →
      |((OrbitControls.update sinq cosq dt s cam).1).sphericalDelta.phi|
          < |s.sphericalDelta.phi| ∧
      ((OrbitControls.update sinq cosq dt s cam).1).sphericalDelta.phi ≠ 0)) ∧
  (s.enableDamping = false →
    ((OrbitControls.update sinq cosq dt s cam).1).sphericalDelta.theta = 0 ∧
    ((OrbitControls.update sinq cosq dt s cam).1).sphericalDelta.phi = 0)

/-- C5: with auto-rotation off (no new input is injected inside the tick) and
the damping factor in (0, 1), one update() multiplies both pending deltas by
exactly (1 - dampingFactor) when damping is enabled — a geometric decay that
strictly shrinks a nonzero delta but never reaches zero — and zeroes both
deltas when damping is disabled. -/
theorem c5_damping_geometric_decay (sinq cosq : ℚ → ℚ) (dt : ℚ) (s : OrbitState)
    (cam : Camera) (hauto : s.autoRotate = false) (h0 : 0 < s.dampingFactor)
    (h1 : s.dampingFactor < 1) : C5Post sinq cosq dt s cam := by
  have hfac0 : (0 : ℚ) < 1 - s.dampingFactor := by linarith
  have hfac1 : 1 - s.dampingFactor < 1 := by linarith
  constructor
  · intro hd
    have hθ : ((OrbitControls.update sinq cosq dt s cam).1).sphericalDelta.theta
        = s.sphericalDelta.theta * (1 - s.dampingFactor) := by
      simp [OrbitControls.update, hauto, hd]
    have hφ : ((OrbitControls.update sinq cosq dt s cam).1).sphericalDelta.phi
        = s.sphericalDelta.phi * (1 - s.dampingFactor) := by
      simp [OrbitControls.update, hauto, hd]
    refine ⟨hθ, hφ, ?_, ?_⟩
    · intro hne
      refine ⟨?_, ?_⟩
      · rw [hθ, abs_mul, abs_of_pos hfac0]
        exact mul_lt_of_lt_one_right (abs_pos.mpr hne) hfac1
      · rw [hθ]
        exact mul_ne_zero hne hfac0.ne'
    · intro hne
      refine ⟨?_, ?_⟩
      · rw [hφ, abs_mul, abs_of_pos hfac0]
        exact mul_lt_of_lt_one_right (abs_pos.mpr hne) hfac1
      · rw [hφ]
        exact mul_ne_zero hne hfac0.ne'
  · intro hd
    constructor <;> simp [OrbitControls.update, hd]

/-- A state with nonzero pending deltas, damping on, default damping factor. -/
def orbitDamp : OrbitState :=
  { orbitBig with sphericalDelta := ⟨0, 1/2, 1/3⟩ }

/-- C5, witness: the theorem applied to a concrete state with pending deltas
(1/2, 1/3) and dampingFactor 1/20. -/
theorem c5_damping_geometric_decay_witness :
    (orbitDamp.autoRotate = false ∧ 0 < orbitDamp.dampingFactor ∧
      orbitDamp.dampingFactor < 1) ∧
    C5Post (fun _ => 0) (fun _ => 0) (2/125) orbitDamp cameraA :=
  ⟨⟨rfl, by norm_num [orbitDamp, orbitBig], by norm_num [orbitDamp, orbitBig]⟩,
   c5_damping_geometric_decay (fun _ => 0) (fun _ => 0) (2/125) orbitDamp cameraA
     rfl (by norm_num [orbitDamp, orbitBig]) (by norm_num [orbitDamp, orbitBig])⟩

/-- handleRotate's fields for a collapsed (zero-width) canvas. -/
def jsRotDegenerate : JSRotState :=
  { sdTheta := JSNum.num 0, sdPhi := JSNum.num 0, rotateSpeed := JSNum.num 1,
    clientWidth := JSNum.num 0, clientHeight := JSNum.num 1 }

/-- handlePan's fields for the same collapsed canvas: camera at (0, 0, 5),
target at the origin, radius 5. -/
def jsPanDegenerate : JSPanState :=
  { panOffsetX := JSNum.num 0, panOffsetY := JSNum.num 0, panOffsetZ := JSNum.num 0,
    sphericalRadius := JSNum.num 5, panSpeed := JSNum.num 1,
    clientWidth := JSNum.num 0, clientHeight := JSNum.num 1,
    cameraX := JSNum.num 0, cameraY := JSNum.num 0, cameraZ := JSNum.num 5,
    targetX := JSNum.num 0, targetY := JSNum.num 0, targetZ := JSNum.num 0 }

/-- Math.sqrt stub agreeing with the real square root at the only argument the
evaluation below reaches (25). -/
def sqrtStub : JSNum → JSNum := fun v =>
  match v with
  | JSNum.num q => JSNum.num (if q = 25 then 5 else 0)
  | _ => JSNum.nan

/-- C6: evaluation at the failing input.  With clientWidth = 0 the unguarded
divisions make handleRotate set the pending theta delta to -Infinity and
handlePan set the x pan offset to +Infinity — not the no-op the spec
requires, and the resulting state is not free of non-finite values. -/
theorem c6_zero_viewport_divides :
    (jsHandleRotate jsRotDegenerate (JSNum.num 1) (JSNum.num 0)).sdTheta
      = JSNum.inf true ∧
    (jsHandleRotate jsRotDegenerate (JSNum.num 1) (JSNum.num 0)).sdTheta.isFinite
      = false ∧
    (jsHandlePan sqrtStub jsPanDegenerate (JSNum.num 1) (JSNum.num 0)).panOffsetX
      = JSNum.inf false ∧
    (jsHandlePan sqrtStub jsPanDegenerate (JSNum.num 1) (JSNum.num 0)).panOffsetX.isFinite
      = false := by
  norm_num [jsHandleRotate, jsHandlePan, jsRotDegenerate, jsPanDegenerate, sqrtStub,
    JSNum.jadd, JSNum.jsub, JSNum.jmul, JSNum.jdiv, JSNum.isFinite, jsPI]

/-- C7: when the surface has no current image, render logs the recoverable
error and returns after only the scene update and the camera uniform upload:
the whole trace is those three events, with zero queue submissions, zero
command encoders (no command recording), and zero draw calls — and, the trace
being a total function, control returns normally to the caller. -/
theorem c7_no_current_texture (env : RenderEnv) :
    renderTrace { env with currentTexture := none } =
      [RenderEvent.sceneUpdate, RenderEvent.writeCameraBuffer,
       RenderEvent.errorLog ("No current texture available.")] ∧
    submitCount (renderTrace { env with currentTexture := none }) = 0 ∧
    encoderCount (renderTrace { env with currentTexture := none }) = 0 ∧
    drawCount (renderTrace { env with currentTexture := none }) = 0 := by
  refine ⟨rfl, rfl, rfl, rfl⟩

/-- C8: a drawable with a missing meshRenderer, mesh, or material contributes
no events at all to the drawable loop (skipped without raising or logging),
and removing it from the scene leaves the trace of the whole loop — and of the
whole frame, recording and submission included — unchanged. -/
theorem c8_missing_refs_skipped (basic camBG : ℕ) (xs ys : List GEntity)
    (mr : GMeshRenderer) (env : RenderEnv) :
    drawableEvents basic camBG ⟨none⟩ = [] ∧
    drawableEvents basic camBG ⟨some { mr with mesh := none }⟩ = [] ∧
    drawableEvents basic camBG ⟨some { mr with material := none }⟩ = [] ∧
    (xs ++ ⟨none⟩ :: ys).flatMap (drawableEvents basic camBG)
      = (xs ++ ys).flatMap (drawableEvents basic camBG) ∧
    (xs ++ ⟨some { mr with mesh := none }⟩ :: ys).flatMap (drawableEvents basic camBG)
      = (xs ++ ys).flatMap (drawableEvents basic camBG) ∧
    (xs ++ ⟨some { mr with material := none }⟩ :: ys).flatMap (drawableEvents basic camBG)
      = (xs ++ ys).flatMap (drawableEvents basic camBG) ∧
    renderTrace { env with entities := xs ++ ⟨none⟩ :: ys }
      = renderTrace { env with entities := xs ++ ys } := by
  have h1 : ∀ b g, drawableEvents b g ⟨none⟩ = [] := fun _ _ => rfl
  have h2 : drawableEvents basic camBG ⟨some { mr with mesh := none }⟩ = [] := by
    cases hm : mr.material <;> simp [drawableEvents]
  have h3 : drawableEvents basic camBG ⟨some { mr with material := none }⟩ = [] := by
    cases hm : mr.mesh <;> simp [drawableEvents]
  have hloop : ∀ (b g : ℕ) (e : GEntity), drawableEvents b g e = [] →
      (xs ++ e :: ys).flatMap (drawableEvents b g)
        = (xs ++ ys).flatMap (drawableEvents b g) := by
    intro b g e he
    simp [List.flatMap_append, he]
  refine ⟨h1 basic camBG, h2, h3, hloop _ _ _ (h1 basic camBG), hloop _ _ _ h2,
    hloop _ _ _ h3, ?_⟩
  rcases env with ⟨ct, dtv, bp, cbg, ents⟩
  cases ct with
  | none => rfl
  | some t =>
    cases dtv with
    | none => rfl
    | some d =>
      simp [renderTrace, List.flatMap_append, h1]

/-- The `||` default is never zero when the default is nonzero. -/
theorem jsOr_ne_zero (o : Option ℚ) (d : ℚ) (hd : d ≠ 0) : jsOr o d ≠ 0 := by
  cases o with
  | none => simpa [jsOr]
  | some q =>
    by_cases hq : q = 0 <;> simp [jsOr, hq, hd]

/-- C9: numeric constructor options defaulted with `||` treat an explicit 0 as
absent — minPolarAngle: 0 becomes 0.1, dampingFactor: 0 becomes 0.05,
rotateSpeed: 0 becomes 1.0, fov: 0 becomes 60 — and whatever the options,
these four parameters can never come out of the constructor as exactly
zero. -/
theorem c9_zero_options_replaced (sqrtq acosq : ℚ → ℚ) (atan2q : ℚ → ℚ → ℚ)
    (cam : Camera) (cw ch : ℚ) (o : OrbitOptions) (co : CameraOptions) :
    (OrbitControls.mkOrbitControls sqrtq acosq atan2q cam
      { o with minPolarAngle := some 0 }).minPolarAngle = 1/10 ∧
    (OrbitControls.mkOrbitControls sqrtq acosq atan2q cam
      { o with dampingFactor := some 0 }).dampingFactor = 1/20 ∧
    (OrbitControls.mkOrbitControls sqrtq acosq atan2q cam
      { o with rotateSpeed := some 0 }).rotateSpeed = 1 ∧
    (mkCamera cw ch { co with fov := some 0 }).fov = 60 ∧
    (OrbitControls.mkOrbitControls sqrtq acosq atan2q cam o).minPolarAngle ≠ 0 ∧
    (OrbitControls.mkOrbitControls sqrtq acosq atan2q cam o).dampingFactor ≠ 0 ∧
    (OrbitControls.mkOrbitControls sqrtq acosq atan2q cam o).rotateSpeed ≠ 0 ∧
    (mkCamera cw ch co).fov ≠ 0 := by
  refine ⟨?_, ?_, ?_, ?_, ?_, ?_, ?_, ?_⟩
  · simp [OrbitControls.mkOrbitControls, OrbitControls.updateSphericalFromCamera, jsOr]
  · simp [OrbitControls.mkOrbitControls, OrbitControls.updateSphericalFromCamera, jsOr]
  · simp [OrbitControls.mkOrbitControls, OrbitControls.updateSphericalFromCamera, jsOr]
  · simp [mkCamera, jsOr]
  · have : (OrbitControls.mkOrbitControls sqrtq acosq atan2q cam o).minPolarAngle
        = jsOr o.minPolarAngle (1/10) := by
      simp [OrbitControls.mkOrbitControls, OrbitControls.updateSphericalFromCamera]
    rw [this]
    exact jsOr_ne_zero _ _ (by norm_num)
  · have : (OrbitControls.mkOrbitControls sqrtq acosq atan2q cam o).dampingFactor
        = jsOr o.dampingFactor (1/20) := by
      simp [OrbitControls.mkOrbitControls, OrbitControls.updateSphericalFromCamera]
    rw [this]
    exact jsOr_ne_zero _ _ (by norm_num)
  · have : (OrbitControls.mkOrbitControls sqrtq acosq atan2q cam o).rotateSpeed
        = jsOr o.rotateSpeed 1 := by
      simp [OrbitControls.mkOrbitControls, OrbitControls.updateSphericalFromCamera]
    rw [this]
    exact jsOr_ne_zero _ _ (by norm_num)
  · have : (mkCamera cw ch co).fov = jsOr co.fov 60 := by simp [mkCamera]
    rw [this]
    exact jsOr_ne_zero _ _ (by norm_num)

/-- C9, witness: the theorem applied at concrete empty option records. -/
theorem c9_zero_options_replaced_witness :
    (OrbitControls.mkOrbitControls (fun _ => 0) (fun _ => 0) (fun _ _ => 0) cameraA
      { ({ } : OrbitOptions) with minPolarAngle := some 0 }).minPolarAngle = 1/10 ∧
    (OrbitControls.mkOrbitControls (fun _ => 0) (fun _ => 0) (fun _ _ => 0) cameraA
      ({ } : OrbitOptions)).dampingFactor ≠ 0 :=
  ⟨(c9_zero_options_replaced (fun _ => 0) (fun _ => 0) (fun _ _ => 0) cameraA 1 1
      { } { }).1,
   (c9_zero_options_replaced (fun _ => 0) (fun _ => 0) (fun _ _ => 0) cameraA 1 1
      { } { }).2.2.2.2.2.1⟩

/-- C10: Camera.update(deltaTime) sets viewDirty = true unconditionally at the
end of the tick — also when no controls are attached and position, target, up
and the cached view matrix are all left untouched — so the cached view matrix
never survives a driver-loop tick. -/
theorem c10_update_always_dirties (sinq cosq : ℚ → ℚ) (cam : Camera)
    (controls : Option OrbitState) (dt : ℚ) :
    (Camera.update sinq cosq cam controls dt).1.viewDirty = true ∧
    (Camera.update sinq cosq cam none dt).1.position = cam.position ∧
    (Camera.update sinq cosq cam none dt).1.target = cam.target ∧
    (Camera.update sinq cosq cam none dt).1.up = cam.up ∧
    (Camera.update sinq cosq cam none dt).1.viewMatrix = cam.viewMatrix := by
  cases controls <;> simp [Camera.update]
